import Mathlib

/-!
# Banking system: ledger operations of `BankingSystem` (src/main.cpp)

A shallow embedding of the balance-mutating member functions of the C++ class
`BankingSystem` (`createAccount`, `deposit`, `withdraw`, `transfer`,
`closeAccount`), of the private helpers they call (`getBalance`,
`getAccountType`, `recordTransaction`), and of the `calculateInterest` methods of the
account classes.

Modelling conventions.

* The MySQL database behind `conn` is an explicit value of type `Database`: the rows
  of table `accounts`, the rows of table `transactions` in insertion order, and the
  AUTO_INCREMENT counter of `accounts.account_number`.  Every member function becomes
  a function from the database before the call to its result and the database after.
* Amounts are exact rationals (`ℚ`): what is stored in a balance and written to the
  log is the exact decimal value the program intends.  The program holds amounts in
  `double` variables, and the one place where it computes with them before a comparison
  decides the outcome, the test `currentBalance - amount < 1000` of withdraw and
  transfer, is evaluated as the program evaluates it: both operands are the nearest
  IEEE 754 binary64 values and the difference is rounded to nearest, ties to even
  (`doubleSub`).  The exponent range is taken as unbounded (no overflow, no subnormals).
* C++ `int` account numbers and the menu's type selector are `Int`; they are only
  compared, never computed with.
* What a member function reports is an `Outcome`: the value it returns together with
  the branch that produced it (identified in the source by the message printed).
* Every SQL statement may throw `sql::SQLException`.  A `Faults` value says which
  statements of a call throw; `noFaults` is the run in which the store never fails.
  `setAutoCommit`, `commit` and `rollback` themselves are taken to succeed, and the
  tables are transactional, so `rollback` restores the database as it was when
  `setAutoCommit(false)` was called.
-/

namespace BankingSystem

/-! ## Tables -/

/-- A row of table `accounts`, with the columns the program reads and writes. -/
structure AccountRow where
  account_number : Int
  account_holder : String
  account_type : String
  balance : ℚ
  phone_number : String
  email : String
  address : String
  status : String
deriving DecidableEq

/-- A row of table `transactions`, with the columns `recordTransaction` binds.  The
store-assigned `transaction_id` and `transaction_date` are left out; the position in
the table is the order of insertion. -/
structure TransactionRow where
  account_number : Int
  transaction_type : String
  amount : ℚ
  balance_after : ℚ
  description : String
deriving DecidableEq

/-- The database: both tables and the AUTO_INCREMENT counter, i.e. the
`account_number` the next `INSERT INTO accounts` is given. -/
structure Database where
  accounts : List AccountRow
  transactions : List TransactionRow
  autoIncrement : Int
deriving DecidableEq

/-- Modelled from the spec: the table definition of `accounts` is not part of the
sources, so the value of column `status` for a row inserted without one (its column
default) is taken from the specification: a created account has `status = Active`. -/
def defaultStatus : String := "Active"

/-! ## Results and store faults -/

/-- The result of a member function: `success` is `return true`, every other
constructor is a `return false`, told apart by the branch taken. -/
inductive Outcome where
  /-- The function ran to `return true`. -/
  | success
  /-- Message "Invalid amount!" (deposit, withdraw, transfer) or
  "Initial deposit cannot be negative!" (createAccount). -/
  | invalidAmount
  /-- Helper `getBalance` gave `-1`: the silent `return false` of deposit, withdraw and
  closeAccount, and "One or both accounts not found!" of transfer. -/
  | accountNotFound
  /-- Message "Current account requires minimum balance of $1000!",
  "Withdrawal would violate minimum balance requirement!" or
  "Transfer would violate minimum balance requirement!". -/
  | minimumBalanceViolation
  /-- Message "Insufficient balance!" or "Insufficient balance in source account!". -/
  | insufficientFunds
  /-- Message "Cannot transfer to same account!". -/
  | sameAccount
  /-- Message "Cannot close account with positive balance. Please withdraw all funds
  first.". -/
  | nonZeroBalance
  /-- Call `executeUpdate` returned 0, so the function fell through to its last
  `return false`. -/
  | noRowAffected
  /-- A `sql::SQLException` reached the function's own `catch`. -/
  | storageError
deriving DecidableEq

/-- The C++ return value. -/
def Outcome.returned : Outcome → Bool
  | .success => true
  | _ => false

/-- The SQL statements a member function executes, by their place in the source. -/
inductive Stmt where
  /-- The `SELECT balance` of `getBalance` (in transfer: for `fromAccount`). -/
  | selectBalance
  /-- The `SELECT balance` of transfer's second `getBalance`, for `toAccount`. -/
  | selectBalanceTo
  /-- The `SELECT account_type` of `getAccountType`. -/
  | selectType
  /-- The `INSERT INTO accounts` of createAccount. -/
  | insertAccount
  /-- The `SELECT LAST_INSERT_ID()` of createAccount. -/
  | selectLastId
  /-- The `UPDATE accounts SET balance` (in transfer: `pstmt1`, the source account). -/
  | updateBalance
  /-- The `UPDATE accounts SET balance` of transfer's `pstmt2`, the destination. -/
  | updateBalanceTo
  /-- The `INSERT INTO transactions` of `recordTransaction` (in transfer: the first call,
  for the source account). -/
  | insertTxn
  /-- The `INSERT INTO transactions` of transfer's second `recordTransaction`. -/
  | insertTxnTo
  /-- The `UPDATE accounts SET status = 'Closed'` of closeAccount. -/
  | updateStatus
deriving DecidableEq

/-- Which statements of a call throw `sql::SQLException`. -/
abbrev Faults := Stmt → Bool

/-- The store never fails. -/
def noFaults : Faults := fun _ => false

/-! ## SQL statements -/

/-- The first row of `accounts` with the given `account_number`: what `res->next()`
positions on after `SELECT ... FROM accounts WHERE account_number = ?`. -/
def selectAccount (db : Database) (accountNumber : Int) : Option AccountRow :=
  db.accounts.find? (fun r => decide (r.account_number = accountNumber))

/-- Statement `UPDATE accounts SET balance = ? WHERE account_number = ?`: every row
with that number gets the new balance. -/
def setBalance (db : Database) (accountNumber : Int) (newBalance : ℚ) : Database :=
  { db with accounts := db.accounts.map (fun r =>
      if r.account_number = accountNumber then { r with balance := newBalance } else r) }

/-- The value `executeUpdate` returns for the balance UPDATE: the number of rows the
statement changed (MySQL counts a matched row only if a stored value changes). -/
def setBalanceCount (db : Database) (accountNumber : Int) (newBalance : ℚ) : Nat :=
  (db.accounts.filter (fun r =>
    decide (r.account_number = accountNumber ∧ r.balance ≠ newBalance))).length

/-- Statement `UPDATE accounts SET status = 'Closed' WHERE account_number = ?`. -/
def setClosed (db : Database) (accountNumber : Int) : Database :=
  { db with accounts := db.accounts.map (fun r =>
      if r.account_number = accountNumber then { r with status := "Closed" } else r) }

/-- The value `executeUpdate` returns for the status UPDATE: the rows changed. -/
def setClosedCount (db : Database) (accountNumber : Int) : Nat :=
  (db.accounts.filter (fun r =>
    decide (r.account_number = accountNumber ∧ r.status ≠ "Closed"))).length

/-! ## Double arithmetic -/

/-- The number of times `n` can be halved before it drops below 2, with `fuel` bounding
the number of steps: the floor of the binary logarithm when `n ≤ fuel`. -/
def log2Fuel : Nat → Nat → Nat
  | 0, _ => 0
  | fuel + 1, n => if n < 2 then 0 else log2Fuel fuel (n / 2) + 1

/-- The floor of the binary logarithm of a positive natural number. -/
def floorLog2 (n : Nat) : Nat := log2Fuel n n

/-- The binary exponent of a nonzero rational: the `e` with `2 ^ e ≤ |x| < 2 ^ (e + 1)`. -/
def binade (x : ℚ) : ℤ :=
  let e0 : ℤ := (floorLog2 x.num.natAbs : ℤ) - (floorLog2 x.den : ℤ)
  if (2 : ℚ) ^ e0 ≤ |x| then e0 else e0 - 1

/-- The integer nearest to `q`, a tie going to the even neighbour. -/
def roundHalfEven (q : ℚ) : ℤ :=
  if q - ⌊q⌋ < 1 / 2 then ⌊q⌋
  else if 1 / 2 < q - ⌊q⌋ then ⌊q⌋ + 1
  else if ⌊q⌋ % 2 = 0 then ⌊q⌋ else ⌊q⌋ + 1

/-- The binary64 value nearest to a positive rational: 53 significant bits, so the
spacing in the binade of `x` is `2 ^ (binade x - 52)`. -/
def toDoublePos (x : ℚ) : ℚ :=
  (roundHalfEven (x / (2 : ℚ) ^ (binade x - 52)) : ℚ) * (2 : ℚ) ^ (binade x - 52)

/-- The value a `double` variable holds for the decimal `x`: the nearest binary64
value, ties to even. -/
def toDouble (x : ℚ) : ℚ :=
  if x = 0 then 0 else if x < 0 then -toDoublePos (-x) else toDoublePos x

/-- The C++ expression `x - y` on two `double` variables holding `x` and `y`. -/
def doubleSub (x y : ℚ) : ℚ := toDouble (toDouble x - toDouble y)

/-! ## Private helpers -/

/-- Helper `BankingSystem::getBalance`: the stored balance, or `-1` when no row matches or the
query throws (the exception is caught inside the helper). -/
def getBalance (fault : Bool) (db : Database) (accountNumber : Int) : ℚ :=
  if fault then -1
  else match selectAccount db accountNumber with
    | some r => r.balance
    | none => -1

/-- Helper `BankingSystem::getAccountType`: the stored type, or `""` when no row matches or
the query throws. -/
def getAccountType (fault : Bool) (db : Database) (accountNumber : Int) : String :=
  if fault then ""
  else match selectAccount db accountNumber with
    | some r => r.account_type
    | none => ""

/-- Helper `BankingSystem::recordTransaction`: appends one row to `transactions`; a thrown
exception is caught inside and nothing is appended. -/
def recordTransaction (fault : Bool) (db : Database) (accountNumber : Int)
    (type : String) (amount balanceAfter : ℚ) (description : String) : Database :=
  if fault then db
  else { db with transactions := db.transactions ++
      [{ account_number := accountNumber, transaction_type := type, amount := amount,
         balance_after := balanceAfter, description := description }] }

/-! ## Public operations -/

/-- Operation `BankingSystem::createAccount`, with the values read from `cin` as arguments
(`type` is the menu selector: 1 for Savings, 2 for Current). -/
def createAccount (f : Faults) (db : Database) (name phone email address : String)
    (type : Int) (initialDeposit : ℚ) : Outcome × Database :=
  if initialDeposit < 0 then (.invalidAmount, db)
  else
    let accType := if type = 1 then "Savings" else "Current"
    if type = 2 ∧ initialDeposit < 1000 then (.minimumBalanceViolation, db)
    else if f .insertAccount then (.storageError, db)
    else
      let accNo := db.autoIncrement
      let db1 : Database :=
        { db with
          accounts := db.accounts ++
            [{ account_number := accNo, account_holder := name, account_type := accType,
               balance := initialDeposit, phone_number := phone, email := email,
               address := address, status := defaultStatus }]
          autoIncrement := db.autoIncrement + 1 }
      if f .selectLastId then (.storageError, db1)
      else
        (.success,
          recordTransaction (f .insertTxn) db1 accNo "Deposit" initialDeposit initialDeposit
            "Initial Deposit")

/-- Operation `BankingSystem::deposit`. -/
def deposit (f : Faults) (db : Database) (accountNumber : Int) (amount : ℚ) :
    Outcome × Database :=
  if amount ≤ 0 then (.invalidAmount, db)
  else
    let currentBalance := getBalance (f .selectBalance) db accountNumber
    if currentBalance = -1 then (.accountNotFound, db)
    else
      let newBalance := currentBalance + amount
      if f .updateBalance then (.storageError, db)
      else if setBalanceCount db accountNumber newBalance ≠ 0 then
        (.success,
          recordTransaction (f .insertTxn) (setBalance db accountNumber newBalance)
            accountNumber "Deposit" amount newBalance "Cash Deposit")
      else (.noRowAffected, setBalance db accountNumber newBalance)

/-- Operation `BankingSystem::withdraw`.  The minimum-balance test
`currentBalance - amount < 1000` subtracts two `double` variables (`doubleSub`); the new
balance that is stored and logged is the exact difference. -/
def withdraw (f : Faults) (db : Database) (accountNumber : Int) (amount : ℚ) :
    Outcome × Database :=
  if amount ≤ 0 then (.invalidAmount, db)
  else
    let currentBalance := getBalance (f .selectBalance) db accountNumber
    if currentBalance = -1 then (.accountNotFound, db)
    else
      let accType := getAccountType (f .selectType) db accountNumber
      if accType = "Current" ∧ doubleSub currentBalance amount < 1000 then
        (.minimumBalanceViolation, db)
      else if currentBalance < amount then (.insufficientFunds, db)
      else
        let newBalance := currentBalance - amount
        if f .updateBalance then (.storageError, db)
        else if setBalanceCount db accountNumber newBalance ≠ 0 then
          (.success,
            recordTransaction (f .insertTxn) (setBalance db accountNumber newBalance)
              accountNumber "Withdrawal" amount newBalance "Cash Withdrawal")
        else (.noRowAffected, setBalance db accountNumber newBalance)

/-- Operation `BankingSystem::transfer`.  The minimum-balance test
`fromBalance - amount < 1000` subtracts two `double` variables (`doubleSub`); the new
balances that are stored and logged are exact.  The two UPDATEs and the two `recordTransaction` calls
run between `setAutoCommit(false)` and `commit()`; an exception that reaches the inner
`catch` rolls back to `db`. -/
def transfer (f : Faults) (db : Database) (fromAccount toAccount : Int) (amount : ℚ) :
    Outcome × Database :=
  if amount ≤ 0 then (.invalidAmount, db)
  else if fromAccount = toAccount then (.sameAccount, db)
  else
    let fromBalance := getBalance (f .selectBalance) db fromAccount
    let toBalance := getBalance (f .selectBalanceTo) db toAccount
    if fromBalance = -1 ∨ toBalance = -1 then (.accountNotFound, db)
    else
      let fromAccType := getAccountType (f .selectType) db fromAccount
      if fromAccType = "Current" ∧ doubleSub fromBalance amount < 1000 then
        (.minimumBalanceViolation, db)
      else if fromBalance < amount then (.insufficientFunds, db)
      else
        let newFromBalance := fromBalance - amount
        let newToBalance := toBalance + amount
        if f .updateBalance then (.storageError, db)
        else
          let db1 := setBalance db fromAccount newFromBalance
          if f .updateBalanceTo then (.storageError, db)
          else
            let db2 := setBalance db1 toAccount newToBalance
            let db3 := recordTransaction (f .insertTxn) db2 fromAccount "Transfer" amount
              newFromBalance ("Transfer to account " ++ toString toAccount)
            let db4 := recordTransaction (f .insertTxnTo) db3 toAccount "Transfer" amount
              newToBalance ("Transfer from account " ++ toString fromAccount)
            (.success, db4)

/-- Operation `BankingSystem::closeAccount`. -/
def closeAccount (f : Faults) (db : Database) (accountNumber : Int) : Outcome × Database :=
  let balance := getBalance (f .selectBalance) db accountNumber
  if balance = -1 then (.accountNotFound, db)
  else if balance > 0 then (.nonZeroBalance, db)
  else if f .updateStatus then (.storageError, db)
  else if setClosedCount db accountNumber ≠ 0 then (.success, setClosed db accountNumber)
  else (.noRowAffected, setClosed db accountNumber)

/-! ## Observations on a database -/

/-- The balance stored for an account number, if the account exists. -/
def balanceOf (db : Database) (accountNumber : Int) : Option ℚ :=
  (selectAccount db accountNumber).map (fun r => r.balance)

/-- The status stored for an account number, if the account exists. -/
def statusOf (db : Database) (accountNumber : Int) : Option String :=
  (selectAccount db accountNumber).map (fun r => r.status)

/-- The account type stored for an account number, if the account exists. -/
def typeOf (db : Database) (accountNumber : Int) : Option String :=
  (selectAccount db accountNumber).map (fun r => r.account_type)

/-- The log of one account: its rows of `transactions`, oldest first. -/
def logOf (db : Database) (accountNumber : Int) : List TransactionRow :=
  db.transactions.filter (fun t => decide (t.account_number = accountNumber))

/-- The balance invariant of the data model: no balance is negative, and a Current
account holds at least the minimum balance of 1000. -/
def BalanceInvariant (db : Database) : Prop :=
  ∀ r ∈ db.accounts, 0 ≤ r.balance ∧ (r.account_type = "Current" → 1000 ≤ r.balance)

/-- The primary key of `accounts`: no two rows share an `account_number`. -/
def PrimaryKey (db : Database) : Prop :=
  (db.accounts.map (fun r => r.account_number)).Nodup

instance (db : Database) : Decidable (BalanceInvariant db) := by
  unfold BalanceInvariant; infer_instance

instance (db : Database) : Decidable (PrimaryKey db) := by
  unfold PrimaryKey; infer_instance

/-- The AUTO_INCREMENT counter is ahead of the table: no stored row already has the
number the next INSERT will be given. -/
def FreshCounter (db : Database) : Prop :=
  ∀ r ∈ db.accounts, r.account_number ≠ db.autoIncrement

instance (db : Database) : Decidable (FreshCounter db) := by
  unfold FreshCounter; infer_instance

/-! ## The account classes -/

/-- The data members of class `Account`, shared by `SavingsAccount` and
`CurrentAccount`. -/
structure Account where
  accountNumber : Int
  accountHolder : String
  accountType : String
  balance : ℚ
  phoneNumber : String
  email : String
  address : String
  status : String
deriving DecidableEq

/-- The class an account object was created as, which selects the override a virtual
call runs. -/
inductive AccountClass where
  | account
  | savingsAccount
  | currentAccount
deriving DecidableEq

/-- The constant `SavingsAccount::INTEREST_RATE = 0.04`. -/
def SavingsAccount.INTEREST_RATE : ℚ := 4 / 100

/-- The constant `CurrentAccount::MINIMUM_BALANCE = 1000.00`. -/
def CurrentAccount.MINIMUM_BALANCE : ℚ := 1000

/-- Method `Account::calculateInterest`: `return 0.0`.  A method is a function from the
object to its result and the object afterwards. -/
def Account.calculateInterest (self : Account) : ℚ × Account :=
  (0, self)

/-- Method `SavingsAccount::calculateInterest`: `return balance * INTEREST_RATE`. -/
def SavingsAccount.calculateInterest (self : Account) : ℚ × Account :=
  (self.balance * SavingsAccount.INTEREST_RATE, self)

/-- Method `CurrentAccount::calculateInterest`: `return 0.0`. -/
def CurrentAccount.calculateInterest (self : Account) : ℚ × Account :=
  (0, self)

/-- Method `CurrentAccount::checkMinimumBalance`. -/
def CurrentAccount.checkMinimumBalance (self : Account) : Bool :=
  decide (self.balance ≥ CurrentAccount.MINIMUM_BALANCE)

/-- The virtual call `acc->calculateInterest()`: the override of the object's class. -/
def calculateInterest (cls : AccountClass) (self : Account) : ℚ × Account :=
  match cls with
  | .account => Account.calculateInterest self
  | .savingsAccount => SavingsAccount.calculateInterest self
  | .currentAccount => CurrentAccount.calculateInterest self

/-! ## Concrete databases used to evaluate the operations -/

/-- Two Savings accounts: number 1 with balance 1000.00, number 2 with balance 300.00,
and an empty log. -/
def twoSavings : Database :=
  { accounts := [
      { account_number := 1, account_holder := "A", account_type := "Savings",
        balance := 1000, phone_number := "", email := "", address := "",
        status := "Active" },
      { account_number := 2, account_holder := "B", account_type := "Savings",
        balance := 300, phone_number := "", email := "", address := "",
        status := "Active" }],
    transactions := [],
    autoIncrement := 3 }

/-- A Current account, number 1 with balance 1500.00, and a Savings account, number 2
with balance 300.00, and an empty log. -/
def currentAndSavings : Database :=
  { accounts := [
      { account_number := 1, account_holder := "A", account_type := "Current",
        balance := 1500, phone_number := "", email := "", address := "",
        status := "Active" },
      { account_number := 2, account_holder := "B", account_type := "Savings",
        balance := 300, phone_number := "", email := "", address := "",
        status := "Active" }],
    transactions := [],
    autoIncrement := 3 }

/-- One Savings account, number 1, with the negative balance -5.00 and status Active. -/
def overdrawnSavings : Database :=
  { accounts := [
      { account_number := 1, account_holder := "A", account_type := "Savings",
        balance := -5, phone_number := "", email := "", address := "",
        status := "Active" }],
    transactions := [],
    autoIncrement := 2 }

/-- One Savings account, number 1, with balance 0.00 and status Active. -/
def emptiedSavings : Database :=
  { accounts := [
      { account_number := 1, account_holder := "A", account_type := "Savings",
        balance := 0, phone_number := "", email := "", address := "",
        status := "Active" }],
    transactions := [],
    autoIncrement := 2 }

/-- A database with no account yet; the first account gets number 1. -/
def emptyBank : Database :=
  { accounts := [], transactions := [], autoIncrement := 1 }

/-- An account object holding 1000.00, as `displayAccountInfo` fills one from a row. -/
def accountA : Account :=
  { accountNumber := 1, accountHolder := "A", accountType := "Savings",
    balance := 1000, phoneNumber := "", email := "", address := "",
    status := "Active" }

/-- Another account object with the same balance of 1000.00 and nothing else in
common. -/
def accountB : Account :=
  { accountNumber := 2, accountHolder := "B", accountType := "Savings",
    balance := 1000, phoneNumber := "5550100", email := "b@example.org",
    address := "2 High Street", status := "Closed" }

/-- Two Current accounts whose balances are not binary fractions, number 1 with
1024.07 and number 2 with 1024.32, and a Savings account, number 3 with 300.00. -/
def boundaryCurrent : Database :=
  { accounts := [
      { account_number := 1, account_holder := "A", account_type := "Current",
        balance := 102407 / 100, phone_number := "", email := "", address := "",
        status := "Active" },
      { account_number := 2, account_holder := "B", account_type := "Current",
        balance := 102432 / 100, phone_number := "", email := "", address := "",
        status := "Active" },
      { account_number := 3, account_holder := "C", account_type := "Savings",
        balance := 300, phone_number := "", email := "", address := "",
        status := "Active" }],
    transactions := [],
    autoIncrement := 4 }

/-- The store fault in which the account-type lookup of `getAccountType` throws and
every other statement runs. -/
def typeLookupFault : Faults
  | .selectType => true
  | _ => false

/-- The store fault in which the first log append of a call throws and every other
statement runs. -/
def logAppendFault : Faults
  | .insertTxn => true
  | _ => false

/-- The store fault in which transfer's UPDATE of the destination account throws. -/
def destinationUpdateFault : Faults
  | .updateBalanceTo => true
  | _ => false

/-! ## Lemmas on the SQL statements -/

theorem returned_eq_true_iff (o : Outcome) : o.returned = true ↔ o = Outcome.success := by
  cases o <;> simp [Outcome.returned]

theorem selectAccount_setBalance (db : Database) (n m : Int) (b : ℚ) :
    selectAccount (setBalance db n b) m =
      (selectAccount db m).map (fun r =>
        if r.account_number = n then { r with balance := b } else r) := by
  unfold selectAccount setBalance
  simp only [List.find?_map]
  congr 1
  apply congrArg (fun p => List.find? p db.accounts)
  funext r
  by_cases h : r.account_number = n <;> simp [h]

theorem selectAccount_setClosed (db : Database) (n m : Int) :
    selectAccount (setClosed db n) m =
      (selectAccount db m).map (fun r =>
        if r.account_number = n then { r with status := "Closed" } else r) := by
  unfold selectAccount setClosed
  simp only [List.find?_map]
  congr 1
  apply congrArg (fun p => List.find? p db.accounts)
  funext r
  by_cases h : r.account_number = n <;> simp [h]

theorem selectAccount_recordTransaction (fl : Bool) (db : Database) (n m : Int)
    (ty : String) (a b : ℚ) (d : String) :
    selectAccount (recordTransaction fl db n ty a b d) m = selectAccount db m := by
  unfold recordTransaction selectAccount
  split <;> rfl

theorem selectAccount_number {db : Database} {n : Int} {r : AccountRow}
    (h : selectAccount db n = some r) : r.account_number = n := by
  unfold selectAccount at h
  have := List.find?_some h
  simpa using this

theorem selectAccount_mem {db : Database} {n : Int} {r : AccountRow}
    (h : selectAccount db n = some r) : r ∈ db.accounts := by
  unfold selectAccount at h
  exact List.mem_of_find?_eq_some h

theorem getBalance_found {fl : Bool} {db : Database} {n : Int}
    (h : getBalance fl db n ≠ -1) :
    fl = false ∧ ∃ r, selectAccount db n = some r ∧ getBalance fl db n = r.balance := by
  unfold getBalance at h ⊢
  cases fl with
  | true => simp at h
  | false =>
    refine ⟨rfl, ?_⟩
    cases hs : selectAccount db n with
    | none => simp [hs] at h
    | some r => exact ⟨r, rfl, by simp⟩

theorem getBalance_of_select {db : Database} {n : Int} {r : AccountRow}
    (h : selectAccount db n = some r) : getBalance false db n = r.balance := by
  simp [getBalance, h]

theorem getAccountType_of_select {db : Database} {n : Int} {r : AccountRow}
    (h : selectAccount db n = some r) : getAccountType false db n = r.account_type := by
  simp [getAccountType, h]

theorem setBalanceCount_ne_zero {db : Database} {n : Int} {r : AccountRow} {b : ℚ}
    (hsel : selectAccount db n = some r) (hb : r.balance ≠ b) :
    setBalanceCount db n b ≠ 0 := by
  unfold setBalanceCount
  have hmem : r ∈ db.accounts.filter (fun r =>
      decide (r.account_number = n ∧ r.balance ≠ b)) := by
    rw [List.mem_filter]
    exact ⟨selectAccount_mem hsel, by simp [selectAccount_number hsel, hb]⟩
  intro h0
  rw [List.length_eq_zero] at h0
  rw [h0] at hmem
  simp at hmem

theorem setClosedCount_ne_zero {db : Database} {n : Int} {r : AccountRow}
    (hsel : selectAccount db n = some r) (hs : r.status ≠ "Closed") :
    setClosedCount db n ≠ 0 := by
  unfold setClosedCount
  have hmem : r ∈ db.accounts.filter (fun r =>
      decide (r.account_number = n ∧ r.status ≠ "Closed")) := by
    rw [List.mem_filter]
    exact ⟨selectAccount_mem hsel, by simp [selectAccount_number hsel, hs]⟩
  intro h0
  rw [List.length_eq_zero] at h0
  rw [h0] at hmem
  simp at hmem

theorem balanceOf_setClosed (db : Database) (n k : Int) :
    balanceOf (setClosed db n) k = balanceOf db k := by
  unfold balanceOf
  rw [selectAccount_setClosed]
  cases selectAccount db k with
  | none => rfl
  | some r => by_cases h : r.account_number = n <;> simp [h]

theorem balanceOf_setBalance_same {db : Database} {n : Int} {r : AccountRow}
    (hsel : selectAccount db n = some r) (b : ℚ) :
    balanceOf (setBalance db n b) n = some b := by
  unfold balanceOf
  rw [selectAccount_setBalance, hsel]
  simp [selectAccount_number hsel]

theorem balanceOf_recordTransaction (fl : Bool) (db : Database) (n k : Int)
    (ty : String) (a b : ℚ) (d : String) :
    balanceOf (recordTransaction fl db n ty a b d) k = balanceOf db k := by
  unfold balanceOf
  rw [selectAccount_recordTransaction]

theorem balanceOf_eq_some {db : Database} {n : Int} {b : ℚ}
    (h : balanceOf db n = some b) : ∃ r, selectAccount db n = some r ∧ r.balance = b := by
  unfold balanceOf at h
  cases hs : selectAccount db n with
  | none => simp [hs] at h
  | some r => exact ⟨r, rfl, by simpa [hs] using h⟩

theorem statusOf_setClosed_same {db : Database} {n : Int} {r : AccountRow}
    (hsel : selectAccount db n = some r) : statusOf (setClosed db n) n = some "Closed" := by
  unfold statusOf
  rw [selectAccount_setClosed, hsel]
  simp [selectAccount_number hsel]

theorem account_of_balance_type {db : Database} {n : Int} {b : ℚ} {t : String}
    (hb : balanceOf db n = some b) (ht : typeOf db n = some t) :
    ∃ r, selectAccount db n = some r ∧ r.balance = b ∧ r.account_type = t := by
  obtain ⟨r, hsel, hrb⟩ := balanceOf_eq_some hb
  refine ⟨r, hsel, hrb, ?_⟩
  simpa [typeOf, hsel] using ht

/-- With no store fault, a withdrawal from a Current account whose difference
`balance - amount`, as the program computes it in `double`, is below 1000 is refused
with the minimum-balance message, whether or not the balance covers it. -/
theorem withdraw_noFaults_minimum {db : Database} {n : Int} {r : AccountRow} {a : ℚ}
    (hsel : selectAccount db n = some r) (hb : r.balance ≠ -1) (ha : 0 < a)
    (hc : r.account_type = "Current") (hlt : doubleSub r.balance a < 1000) :
    withdraw noFaults db n a = (Outcome.minimumBalanceViolation, db) := by
  simp only [withdraw, noFaults, getBalance_of_select hsel, getAccountType_of_select hsel]
  simp [not_le.mpr ha, hb, hc, hlt]

/-- With no store fault, a withdrawal that passes the minimum-balance check and exceeds
the balance is refused with the insufficient-balance message. -/
theorem withdraw_noFaults_insufficient {db : Database} {n : Int} {r : AccountRow} {a : ℚ}
    (hsel : selectAccount db n = some r) (hb : r.balance ≠ -1) (ha : 0 < a)
    (hmin : ¬(r.account_type = "Current" ∧ doubleSub r.balance a < 1000)) (hlt : r.balance < a) :
    withdraw noFaults db n a = (Outcome.insufficientFunds, db) := by
  simp only [withdraw, noFaults, getBalance_of_select hsel, getAccountType_of_select hsel]
  simp only [not_le.mpr ha, hb, hmin, hlt, if_true, if_false]

/-- With no store fault, a withdrawal that passes both checks runs the UPDATE and the
log append. -/
theorem withdraw_noFaults_success {db : Database} {n : Int} {r : AccountRow} {a : ℚ}
    (hsel : selectAccount db n = some r) (hb : r.balance ≠ -1) (ha : 0 < a)
    (hmin : ¬(r.account_type = "Current" ∧ doubleSub r.balance a < 1000))
    (hge : ¬ r.balance < a) :
    withdraw noFaults db n a =
      (Outcome.success,
        recordTransaction false (setBalance db n (r.balance - a)) n "Withdrawal" a
          (r.balance - a) "Cash Withdrawal") := by
  have hcount : setBalanceCount db n (r.balance - a) ≠ 0 :=
    setBalanceCount_ne_zero hsel (by linarith)
  simp only [withdraw, noFaults, getBalance_of_select hsel, getAccountType_of_select hsel]
  simp only [not_le.mpr ha, hb, hmin, hge, if_true, if_false]
  simp [hcount]

theorem transactions_recordTransaction (db : Database) (n : Int) (ty : String)
    (a b : ℚ) (d : String) :
    (recordTransaction false db n ty a b d).transactions =
      db.transactions ++ [{ account_number := n, transaction_type := ty, amount := a,
                            balance_after := b, description := d }] := by
  simp [recordTransaction]

theorem transactions_setBalance (db : Database) (n : Int) (b : ℚ) :
    (setBalance db n b).transactions = db.transactions := rfl

theorem setBalance_of_count_zero {db : Database} {n : Int} {b : ℚ}
    (h : setBalanceCount db n b = 0) : setBalance db n b = db := by
  unfold setBalanceCount at h
  rw [List.length_eq_zero, List.filter_eq_nil_iff] at h
  unfold setBalance
  have hmap : db.accounts.map (fun r =>
      if r.account_number = n then { r with balance := b } else r) = db.accounts := by
    conv_rhs => rw [← List.map_id db.accounts]
    apply List.map_congr_left
    intro r hr
    have hr2 := h r hr
    simp only [decide_eq_true_eq, not_and, not_not] at hr2
    by_cases hn : r.account_number = n
    · have hbal := hr2 hn
      cases r
      simp_all
    · simp [hn]
  rw [hmap]

theorem setClosed_of_count_zero {db : Database} {n : Int}
    (h : setClosedCount db n = 0) : setClosed db n = db := by
  unfold setClosedCount at h
  rw [List.length_eq_zero, List.filter_eq_nil_iff] at h
  unfold setClosed
  have hmap : db.accounts.map (fun r =>
      if r.account_number = n then { r with status := "Closed" } else r) = db.accounts := by
    conv_rhs => rw [← List.map_id db.accounts]
    apply List.map_congr_left
    intro r hr
    have hr2 := h r hr
    simp only [decide_eq_true_eq, not_and, not_not] at hr2
    by_cases hn : r.account_number = n
    · have hst := hr2 hn
      cases r
      simp_all
    · simp [hn]
  rw [hmap]

theorem recordTransaction_transactions (fl : Bool) (db : Database) (n : Int)
    (ty : String) (a b : ℚ) (d : String) :
    (recordTransaction fl db n ty a b d).transactions =
      db.transactions ++
        (if fl then []
         else [{ account_number := n, transaction_type := ty, amount := a,
                 balance_after := b, description := d }]) := by
  cases fl <;> simp [recordTransaction]

theorem balanceOf_setBalance_other {db : Database} {n k : Int} (hne : k ≠ n) (b : ℚ) :
    balanceOf (setBalance db n b) k = balanceOf db k := by
  unfold balanceOf
  rw [selectAccount_setBalance]
  cases hs : selectAccount db k with
  | none => rfl
  | some r =>
    have hnum := selectAccount_number hs
    have hrn : ¬ r.account_number = n := by rw [hnum]; exact hne
    simp [hrn]

theorem selectAccount_append_fresh {db : Database} (hfresh : FreshCounter db)
    (row : AccountRow) (hrow : row.account_number = db.autoIncrement) :
    selectAccount { db with accounts := db.accounts ++ [row],
                            autoIncrement := db.autoIncrement + 1 } db.autoIncrement
      = some row := by
  unfold selectAccount
  have hnone : db.accounts.find? (fun r => decide (r.account_number = db.autoIncrement))
      = none := by
    rw [List.find?_eq_none]
    intro r hr
    simpa using hfresh r hr
  simp [List.find?_append, hnone, hrow]

theorem getAccountType_of_typeOf {db : Database} {n : Int} {t : String}
    (h : typeOf db n = some t) : getAccountType false db n = t := by
  unfold typeOf at h
  cases hs : selectAccount db n with
  | none => simp [hs] at h
  | some r =>
    rw [getAccountType_of_select hs]
    simpa [hs] using h

/-! ## Lemmas on double rounding -/

theorem log2Fuel_spec (fuel : Nat) : ∀ n : Nat, n ≤ fuel → 1 ≤ n →
    2 ^ log2Fuel fuel n ≤ n ∧ n < 2 ^ (log2Fuel fuel n + 1) := by
  induction fuel with
  | zero => intro n h1 h2; omega
  | succ k ih =>
    intro n hle hpos
    unfold log2Fuel
    by_cases h : n < 2
    · simp only [h, if_true]
      constructor <;> omega
    · simp only [h, if_false]
      have hk : n / 2 ≤ k := by omega
      have hp : 1 ≤ n / 2 := by omega
      obtain ⟨h1, h2⟩ := ih (n / 2) hk hp
      constructor
      · rw [pow_succ]; omega
      · rw [pow_succ]; omega

theorem floorLog2_spec {n : Nat} (h : 1 ≤ n) :
    2 ^ floorLog2 n ≤ n ∧ n < 2 ^ (floorLog2 n + 1) :=
  log2Fuel_spec n n le_rfl h

theorem binade_spec {x : ℚ} (hx : 0 < x) :
    (2 : ℚ) ^ binade x ≤ x ∧ x < (2 : ℚ) ^ (binade x + 1) := by
  have hnum : 0 < x.num := Rat.num_pos.mpr hx
  have hp : 1 ≤ x.num.natAbs := by omega
  have hq : 1 ≤ x.den := x.den_pos
  obtain ⟨hp1, hp2⟩ := floorLog2_spec hp
  obtain ⟨hq1, hq2⟩ := floorLog2_spec hq
  set a := floorLog2 x.num.natAbs
  set b := floorLog2 x.den
  have hxe : x = (x.num.natAbs : ℚ) / (x.den : ℚ) := by
    have h1 : ((x.num.natAbs : ℕ) : ℚ) = (x.num : ℚ) := by
      rw [Nat.cast_natAbs, abs_of_pos hnum]
    rw [h1]
    exact (Rat.num_div_den x).symm
  have hdpos : (0 : ℚ) < (x.den : ℚ) := by exact_mod_cast hq
  have hp1q : (2 : ℚ) ^ a ≤ (x.num.natAbs : ℚ) := by exact_mod_cast hp1
  have hp2q : (x.num.natAbs : ℚ) < (2 : ℚ) ^ (a + 1) := by exact_mod_cast hp2
  have hq1q : (2 : ℚ) ^ b ≤ (x.den : ℚ) := by exact_mod_cast hq1
  have hq2q : (x.den : ℚ) < (2 : ℚ) ^ (b + 1) := by exact_mod_cast hq2
  have h2pos : ∀ k : ℤ, (0 : ℚ) < (2 : ℚ) ^ k := fun k => zpow_pos (by norm_num) k
  -- upper bound: x < 2^(a - b + 1)
  have hup : x < (2 : ℚ) ^ ((a : ℤ) - b + 1) := by
    have : (2 : ℚ) ^ ((a : ℤ) - b + 1) = (2 : ℚ) ^ (a + 1) / (2 : ℚ) ^ b := by
      rw [show ((a : ℤ) - b + 1) = ((a + 1 : ℕ) : ℤ) - (b : ℤ) by push_cast; ring]
      rw [zpow_sub₀ (by norm_num : (2 : ℚ) ≠ 0), zpow_natCast, zpow_natCast]
    rw [this, hxe, div_lt_div_iff₀ hdpos (pow_pos (by norm_num) b)]
    calc (x.num.natAbs : ℚ) * 2 ^ b < 2 ^ (a + 1) * 2 ^ b := by
          apply mul_lt_mul_of_pos_right hp2q (pow_pos (by norm_num) b)
      _ ≤ 2 ^ (a + 1) * (x.den : ℚ) := by
          apply mul_le_mul_of_nonneg_left hq1q (pow_nonneg (by norm_num) _)
  -- lower bound: 2^(a - b - 1) ≤ x
  have hlo : (2 : ℚ) ^ ((a : ℤ) - b - 1) ≤ x := by
    have : (2 : ℚ) ^ ((a : ℤ) - b - 1) = (2 : ℚ) ^ a / (2 : ℚ) ^ (b + 1) := by
      rw [show ((a : ℤ) - b - 1) = ((a : ℕ) : ℤ) - ((b + 1 : ℕ) : ℤ) by push_cast; ring]
      rw [zpow_sub₀ (by norm_num : (2 : ℚ) ≠ 0), zpow_natCast, zpow_natCast]
    rw [this, hxe, div_le_div_iff₀ (pow_pos (by norm_num) (b + 1)) hdpos]
    calc (2 : ℚ) ^ a * (x.den : ℚ) ≤ 2 ^ a * 2 ^ (b + 1) := by
          apply mul_le_mul_of_nonneg_left hq2q.le (pow_nonneg (by norm_num) _)
      _ ≤ (x.num.natAbs : ℚ) * 2 ^ (b + 1) := by
          apply mul_le_mul_of_nonneg_right hp1q (pow_nonneg (by norm_num) _)
  unfold binade
  simp only [abs_of_pos hx]
  show (2 : ℚ) ^ (if (2 : ℚ) ^ ((a : ℤ) - b) ≤ x then ((a : ℤ) - b) else (a : ℤ) - b - 1) ≤ x ∧
    x < (2 : ℚ) ^ ((if (2 : ℚ) ^ ((a : ℤ) - b) ≤ x then ((a : ℤ) - b) else (a : ℤ) - b - 1) + 1)
  split_ifs with h
  · exact ⟨h, hup⟩
  · refine ⟨hlo, ?_⟩
    rw [show (a : ℤ) - b - 1 + 1 = (a : ℤ) - b by ring]
    exact lt_of_not_le h

theorem floor_le_roundHalfEven (q : ℚ) : ⌊q⌋ ≤ roundHalfEven q := by
  unfold roundHalfEven
  split_ifs <;> omega

theorem roundHalfEven_le_floor_add_one (q : ℚ) : roundHalfEven q ≤ ⌊q⌋ + 1 := by
  unfold roundHalfEven
  split_ifs <;> omega

theorem roundHalfEven_intCast (n : ℤ) : roundHalfEven (n : ℚ) = n := by
  unfold roundHalfEven
  simp

theorem roundHalfEven_mono {p q : ℚ} (h : p ≤ q) : roundHalfEven p ≤ roundHalfEven q := by
  have hfl : ⌊p⌋ ≤ ⌊q⌋ := Int.floor_mono h
  rcases lt_or_eq_of_le hfl with hlt | heq
  · calc roundHalfEven p ≤ ⌊p⌋ + 1 := roundHalfEven_le_floor_add_one p
      _ ≤ ⌊q⌋ := by omega
      _ ≤ roundHalfEven q := floor_le_roundHalfEven q
  · have hfrac : p - ⌊p⌋ ≤ q - ⌊p⌋ := by linarith
    unfold roundHalfEven
    rw [← heq]
    split_ifs <;> first | omega | (exfalso; linarith)

theorem toDoublePos_bounds {x : ℚ} (hx : 0 < x) :
    (2 : ℚ) ^ binade x ≤ toDoublePos x ∧ toDoublePos x ≤ (2 : ℚ) ^ (binade x + 1) := by
  obtain ⟨hlo, hhi⟩ := binade_spec hx
  have hu : (0 : ℚ) < (2 : ℚ) ^ (binade x - 52) := zpow_pos (by norm_num) _
  have e1 : (2 : ℚ) ^ binade x = ((2 ^ 52 : ℤ) : ℚ) * (2 : ℚ) ^ (binade x - 52) := by
    have h52 : ((2 ^ 52 : ℤ) : ℚ) = (2 : ℚ) ^ (52 : ℤ) := by norm_num
    rw [h52, ← zpow_add₀ (by norm_num : (2 : ℚ) ≠ 0)]
    congr 1
    ring
  have e2 : (2 : ℚ) ^ (binade x + 1) = ((2 ^ 53 : ℤ) : ℚ) * (2 : ℚ) ^ (binade x - 52) := by
    have h53 : ((2 ^ 53 : ℤ) : ℚ) = (2 : ℚ) ^ (53 : ℤ) := by norm_num
    rw [h53, ← zpow_add₀ (by norm_num : (2 : ℚ) ≠ 0)]
    congr 1
    ring
  have hq1 : ((2 ^ 52 : ℤ) : ℚ) ≤ x / (2 : ℚ) ^ (binade x - 52) := by
    rw [le_div_iff₀ hu, ← e1]
    exact hlo
  have hq2 : x / (2 : ℚ) ^ (binade x - 52) ≤ ((2 ^ 53 : ℤ) : ℚ) := by
    rw [div_le_iff₀ hu, ← e2]
    exact hhi.le
  have hk1 := roundHalfEven_mono hq1
  have hk2 := roundHalfEven_mono hq2
  rw [roundHalfEven_intCast] at hk1 hk2
  unfold toDoublePos
  rw [e1, e2]
  constructor
  · exact mul_le_mul_of_nonneg_right (by exact_mod_cast hk1) hu.le
  · exact mul_le_mul_of_nonneg_right (by exact_mod_cast hk2) hu.le

theorem binade_mono {x y : ℚ} (hx : 0 < x) (hxy : x ≤ y) : binade x ≤ binade y := by
  by_contra hlt
  push_neg at hlt
  have h1 := (binade_spec hx).1
  have h2 := (binade_spec (lt_of_lt_of_le hx hxy)).2
  have h3 : (2 : ℚ) ^ (binade y + 1) ≤ (2 : ℚ) ^ binade x :=
    zpow_le_zpow_right₀ (by norm_num) (by omega)
  linarith

theorem toDoublePos_mono {x y : ℚ} (hx : 0 < x) (hxy : x ≤ y) :
    toDoublePos x ≤ toDoublePos y := by
  have hy : 0 < y := lt_of_lt_of_le hx hxy
  rcases lt_or_eq_of_le (binade_mono hx hxy) with hlt | heq
  · calc toDoublePos x ≤ (2 : ℚ) ^ (binade x + 1) := (toDoublePos_bounds hx).2
      _ ≤ (2 : ℚ) ^ binade y := zpow_le_zpow_right₀ (by norm_num) (by omega)
      _ ≤ toDoublePos y := (toDoublePos_bounds hy).1
  · unfold toDoublePos
    rw [heq]
    have hu : (0 : ℚ) < (2 : ℚ) ^ (binade y - 52) := zpow_pos (by norm_num) _
    apply mul_le_mul_of_nonneg_right _ hu.le
    have : x / (2 : ℚ) ^ (binade y - 52) ≤ y / (2 : ℚ) ^ (binade y - 52) :=
      div_le_div_of_nonneg_right hxy hu.le
    exact_mod_cast roundHalfEven_mono this

theorem toDoublePos_pos {x : ℚ} (hx : 0 < x) : 0 < toDoublePos x :=
  lt_of_lt_of_le (zpow_pos (by norm_num) _) (toDoublePos_bounds hx).1

theorem toDouble_mono {x y : ℚ} (hxy : x ≤ y) : toDouble x ≤ toDouble y := by
  unfold toDouble
  rcases lt_trichotomy x 0 with hx | hx | hx
  · rcases lt_trichotomy y 0 with hy | hy | hy
    · simp only [hx.ne, hy.ne, hx, hy, if_true, if_false]
      have := toDoublePos_mono (neg_pos.mpr hy) (neg_le_neg hxy)
      linarith
    · simp only [hx.ne, hx, hy, if_true, if_false]
      have := toDoublePos_pos (neg_pos.mpr hx)
      linarith
    · simp only [hx.ne, hx, hy.ne', not_lt.mpr hy.le, if_true, if_false]
      have h1 := toDoublePos_pos (neg_pos.mpr hx)
      have h2 := toDoublePos_pos hy
      linarith
  · have hy : 0 ≤ y := hx ▸ hxy
    rcases eq_or_lt_of_le hy with hy0 | hypos
    · simp [hx, ← hy0]
    · simp only [hx, hypos.ne', not_lt.mpr hy, if_true, if_false]
      exact (toDoublePos_pos hypos).le
  · have hy : 0 < y := lt_of_lt_of_le hx hxy
    simp only [hx.ne', hy.ne', not_lt.mpr hx.le, not_lt.mpr hy.le, if_false]
    exact toDoublePos_mono hx hxy

theorem toDouble_zero : toDouble 0 = 0 := by
  simp [toDouble]

theorem doubleSub_nonpos {x y : ℚ} (h : x ≤ y) : doubleSub x y ≤ 0 := by
  unfold doubleSub
  have h1 : toDouble x - toDouble y ≤ 0 := sub_nonpos.mpr (toDouble_mono h)
  have h2 := toDouble_mono h1
  rwa [toDouble_zero] at h2

/-! ## Transfer: atomicity and conservation -/

/-- When the UPDATE of the destination account throws, the inner `catch` rolls back:
transfer reports failure and the database is the one before the call. -/
theorem transfer_destination_fault_rolls_back (f : Faults) (db : Database)
    (fromAccount toAccount : Int) (amount : ℚ) (h : f .updateBalanceTo = true) :
    (transfer f db fromAccount toAccount amount).1 ≠ Outcome.success ∧
      (transfer f db fromAccount toAccount amount).2 = db := by
  unfold transfer
  simp only [h]
  split_ifs <;> simp

/-- The rollback on Scenario 5's accounts: with the destination UPDATE throwing, the
transfer of 200.00 reports a storage error and the database is untouched. -/
theorem transfer_destination_fault_scenario :
    transfer destinationUpdateFault twoSavings 1 2 200 =
      (Outcome.storageError, twoSavings) := by
  decide!

/-- C1 (atomicity of transfer), evaluated where the code departs from it: transfer of
200.00 from account 1 (1000.00) to account 2 (300.00), with the log append for the
source account throwing.  `recordTransaction` catches the exception itself, so the
transfer commits: it returns true, both balances are updated, and one log entry (the
destination's) is appended, the source's is missing. -/
theorem transfer_log_fault_commits :
    (transfer logAppendFault twoSavings 1 2 200).1 = Outcome.success ∧
      balanceOf twoSavings 1 = some 1000 ∧ balanceOf twoSavings 2 = some 300 ∧
      balanceOf (transfer logAppendFault twoSavings 1 2 200).2 1 = some 800 ∧
      balanceOf (transfer logAppendFault twoSavings 1 2 200).2 2 = some 500 ∧
      twoSavings.transactions = [] ∧
      logOf (transfer logAppendFault twoSavings 1 2 200).2 1 = [] ∧
      (logOf (transfer logAppendFault twoSavings 1 2 200).2 2).length = 1 := by
  decide!

/-- C2 (conservation law): whenever transfer returns true, both accounts existed, the
source balance went down by the amount, the destination balance went up by the amount,
and the sum of the two balances is the same as before. -/
theorem transfer_conservation (f : Faults) (db : Database) (fromAccount toAccount : Int)
    (amount : ℚ) (h : (transfer f db fromAccount toAccount amount).1 = Outcome.success) :
    ∃ bf bt : ℚ,
      balanceOf db fromAccount = some bf ∧ balanceOf db toAccount = some bt ∧
      balanceOf (transfer f db fromAccount toAccount amount).2 fromAccount
        = some (bf - amount) ∧
      balanceOf (transfer f db fromAccount toAccount amount).2 toAccount
        = some (bt + amount) ∧
      (bf - amount) + (bt + amount) = bf + bt := by
  simp only [transfer] at h ⊢
  split_ifs at h ⊢ with h1 h2 h3
  push_neg at h3
  obtain ⟨-, rf, hrf, hbf⟩ := getBalance_found h3.1
  obtain ⟨-, rt, hrt, hbt⟩ := getBalance_found h3.2
  have hnf := selectAccount_number hrf
  have hnt := selectAccount_number hrt
  refine ⟨rf.balance, rt.balance, by simp [balanceOf, hrf], by simp [balanceOf, hrt], ?_, ?_,
    by ring⟩
  · simp only [balanceOf, selectAccount_recordTransaction, selectAccount_setBalance, hrf,
      Option.map_some', hnf, hbf]
    simp [h2]
  · simp only [balanceOf, selectAccount_recordTransaction, selectAccount_setBalance, hrt,
      Option.map_some', hnt, hbt]
    simp [Ne.symm h2, hnt]

/-- Scenario 5 as an instance of C2: transferring 200.00 from account 1 (1000.00) to
account 2 (300.00) succeeds, so the law applies to it. -/
theorem transfer_conservation_witness :
    (transfer noFaults twoSavings 1 2 200).1 = Outcome.success ∧
    ∃ bf bt : ℚ,
      balanceOf twoSavings 1 = some bf ∧ balanceOf twoSavings 2 = some bt ∧
      balanceOf (transfer noFaults twoSavings 1 2 200).2 1 = some (bf - 200) ∧
      balanceOf (transfer noFaults twoSavings 1 2 200).2 2 = some (bt + 200) ∧
      (bf - 200) + (bt + 200) = bf + bt :=
  ⟨by decide!, transfer_conservation noFaults twoSavings 1 2 200 (by decide!)⟩

/-! ## The balance invariant -/

theorem find_of_mem_of_nodup (l : List AccountRow)
    (hnd : (l.map (fun r => r.account_number)).Nodup) {r : AccountRow} (hr : r ∈ l) :
    l.find? (fun x => decide (x.account_number = r.account_number)) = some r := by
  induction l with
  | nil => simp at hr
  | cons x xs ih =>
    simp only [List.map_cons, List.nodup_cons, List.mem_map, not_exists, not_and] at hnd
    rcases List.mem_cons.mp hr with rfl | hmem
    · simp
    · have hne : x.account_number ≠ r.account_number := fun e => hnd.1 r hmem e.symm
      simp [List.find?_cons, hne, ih hnd.2 hmem]

theorem selectAccount_of_mem {db : Database} (hpk : PrimaryKey db) {r : AccountRow}
    (hr : r ∈ db.accounts) : selectAccount db r.account_number = some r :=
  find_of_mem_of_nodup db.accounts hpk hr

theorem primaryKey_setBalance {db : Database} (hpk : PrimaryKey db) (n : Int) (b : ℚ) :
    PrimaryKey (setBalance db n b) := by
  unfold PrimaryKey setBalance at *
  have hmap : (db.accounts.map (fun r =>
      if r.account_number = n then { r with balance := b } else r)).map
        (fun r => r.account_number) = db.accounts.map (fun r => r.account_number) := by
    rw [List.map_map]
    apply List.map_congr_left
    intro r _
    by_cases h : r.account_number = n <;> simp [h]
  simpa [hmap] using hpk

theorem balanceInvariant_setBalance {db : Database} (hpk : PrimaryKey db)
    (hinv : BalanceInvariant db) {n : Int} {r0 : AccountRow} {b : ℚ}
    (hsel : selectAccount db n = some r0) (hb : 0 ≤ b)
    (hcur : r0.account_type = "Current" → 1000 ≤ b) :
    BalanceInvariant (setBalance db n b) := by
  intro r hr
  simp only [setBalance, List.mem_map] at hr
  obtain ⟨r1, hr1, rfl⟩ := hr
  by_cases h : r1.account_number = n
  · have h0 : r1 = r0 := by
      have := selectAccount_of_mem hpk hr1
      rw [h, hsel] at this
      exact (Option.some.inj this).symm
    subst h0
    simpa [h] using ⟨hb, hcur⟩
  · simpa [h] using hinv r1 hr1

theorem balanceInvariant_recordTransaction {fl : Bool} {db : Database} {n : Int}
    {ty : String} {a b : ℚ} {d : String} (hinv : BalanceInvariant db) :
    BalanceInvariant (recordTransaction fl db n ty a b d) := by
  unfold recordTransaction
  split
  · exact hinv
  · exact hinv

/-- A deposit that returns true keeps the balance invariant, whatever the store does. -/
theorem deposit_preserves_invariant (f : Faults) (db : Database) (hpk : PrimaryKey db)
    (hinv : BalanceInvariant db) (n : Int) (a : ℚ)
    (h : (deposit f db n a).1 = Outcome.success) :
    BalanceInvariant (deposit f db n a).2 := by
  simp only [deposit] at h ⊢
  split_ifs at h ⊢ with h1 h2 h3 h4
  obtain ⟨-, r, hr, hb⟩ := getBalance_found h2
  have hrinv := hinv r (selectAccount_mem hr)
  rw [hb]
  refine balanceInvariant_recordTransaction
    (balanceInvariant_setBalance hpk hinv hr ?_ ?_)
  · linarith [hrinv.1]
  · intro hc
    linarith [hrinv.2 hc]

/-- C3 (balance invariant preserved), evaluated where the code departs from it: on the
Current account 1 (1500.00) and the Savings account 2 (300.00), which satisfy the
invariant, a withdrawal of 600.00 from account 1 during which the account-type lookup
throws.  `getAccountType` catches the exception and returns the empty string, so the
minimum-balance check is skipped: withdraw returns true and the Current account is left
with 900.00, below its minimum of 1000.00. -/
theorem withdraw_type_fault_breaks_invariant :
    PrimaryKey currentAndSavings ∧ BalanceInvariant currentAndSavings ∧
      (withdraw typeLookupFault currentAndSavings 1 600).1 = Outcome.success ∧
      typeOf (withdraw typeLookupFault currentAndSavings 1 600).2 1 = some "Current" ∧
      balanceOf (withdraw typeLookupFault currentAndSavings 1 600).2 1 = some 900 ∧
      ¬ BalanceInvariant (withdraw typeLookupFault currentAndSavings 1 600).2 := by
  decide!

/-! ## Closed accounts -/

/-- C5 (closeAccount requires a balance of exactly 0), evaluated where the code departs
from it: closeAccount on account 1, whose balance is -5.00, is not refused with
NonZeroBalance: the guard is `balance > 0`, so it returns true and sets the status to
Closed. -/
theorem close_with_negative_balance_succeeds :
    balanceOf overdrawnSavings 1 = some (-5) ∧
      statusOf overdrawnSavings 1 = some "Active" ∧
      (closeAccount noFaults overdrawnSavings 1).1 = Outcome.success ∧
      statusOf (closeAccount noFaults overdrawnSavings 1).2 1 = some "Closed" := by
  decide!

/-- What the guard `balance > 0` of closeAccount does: for an existing account with
balance `b`, closeAccount fails with NonZeroBalance whenever `b > 0` and leaves the
database unchanged; with `b = 0` and a status other than Closed it succeeds and the
status becomes Closed; and it succeeds only when `b <= 0`. -/
theorem closeAccount_rejects_positive_balance (f : Faults) (db : Database) (n : Int)
    (b : ℚ) (hb : balanceOf db n = some b) :
    (0 < b → closeAccount noFaults db n = (Outcome.nonZeroBalance, db)) ∧
    (0 < b → (closeAccount f db n).1 ≠ Outcome.success ∧ (closeAccount f db n).2 = db) ∧
    (b = 0 → ∀ st : String, statusOf db n = some st → st ≠ "Closed" →
        (closeAccount noFaults db n).1 = Outcome.success ∧
        statusOf (closeAccount noFaults db n).2 n = some "Closed" ∧
        balanceOf (closeAccount noFaults db n).2 n = some 0) ∧
    ((closeAccount f db n).1 = Outcome.success → b ≤ 0) := by
  obtain ⟨r, hsel, rfl⟩ := balanceOf_eq_some hb
  have hpos : 0 < r.balance → (closeAccount f db n).1 ≠ Outcome.success ∧
      (closeAccount f db n).2 = db := by
    intro hlt
    simp only [closeAccount]
    split_ifs with h1 h2
    · simp
    · simp
    · exfalso
      apply h2
      cases hfl : f Stmt.selectBalance with
      | true => simp [hfl, getBalance] at h1
      | false => simpa [hfl, getBalance_of_select hsel] using hlt
    · exfalso
      apply h2
      cases hfl : f Stmt.selectBalance with
      | true => simp [hfl, getBalance] at h1
      | false => simpa [hfl, getBalance_of_select hsel] using hlt
    · exfalso
      apply h2
      cases hfl : f Stmt.selectBalance with
      | true => simp [hfl, getBalance] at h1
      | false => simpa [hfl, getBalance_of_select hsel] using hlt
  refine ⟨?_, hpos, ?_, ?_⟩
  · intro hlt
    have hne : r.balance ≠ -1 := by linarith
    simp [closeAccount, noFaults, getBalance_of_select hsel, hne, hlt]
  · intro h0 st hst hcl
    have hstatus : r.status ≠ "Closed" := by
      have : some r.status = some st := by simpa [statusOf, hsel] using hst
      rw [Option.some.inj this]
      exact hcl
    have hcount := setClosedCount_ne_zero hsel hstatus
    have hne : r.balance ≠ -1 := by rw [h0]; norm_num
    have hres : closeAccount noFaults db n = (Outcome.success, setClosed db n) := by
      simp [closeAccount, noFaults, getBalance_of_select hsel, hne, h0, hcount]
    rw [hres]
    refine ⟨rfl, statusOf_setClosed_same hsel, ?_⟩
    rw [balanceOf_setClosed, hb, h0]
  · intro hs
    by_contra hlt
    exact (hpos (lt_of_not_le hlt)).1 hs

/-- Scenario 6: closing account 2 of `twoSavings` (300.00) fails with NonZeroBalance,
closing account 1 of `emptiedSavings` (0.00) succeeds and the status becomes Closed. -/
theorem closeAccount_rejects_positive_balance_witness :
    balanceOf twoSavings 2 = some 300 ∧
    closeAccount noFaults twoSavings 2 = (Outcome.nonZeroBalance, twoSavings) ∧
    balanceOf emptiedSavings 1 = some 0 ∧
    (closeAccount noFaults emptiedSavings 1).1 = Outcome.success ∧
    statusOf (closeAccount noFaults emptiedSavings 1).2 1 = some "Closed" ∧
    balanceOf (closeAccount noFaults emptiedSavings 1).2 1 = some 0 :=
  ⟨by decide,
    (closeAccount_rejects_positive_balance noFaults twoSavings 2 300 (by decide)).1
      (by norm_num),
    by decide,
    (closeAccount_rejects_positive_balance noFaults emptiedSavings 1 0 (by decide)).2.2.1
      rfl "Active" (by decide) (by decide)⟩

/-! ## Opening an account -/

/-- With selector 2 (Current) and an initial deposit in [0, 1000), createAccount stops
at the minimum-balance check: no account is created and nothing is logged. -/
theorem createAccount_current_below_minimum (f : Faults) (db : Database)
    (name phone email address : String) (d : ℚ) (h0 : 0 ≤ d) (h : d < 1000) :
    createAccount f db name phone email address 2 d =
      (Outcome.minimumBalanceViolation, db) := by
  simp [createAccount, not_lt.mpr h0, h]

/-- C6 (openAccount enforces the Current minimum), evaluated where the code departs
from it: with account-type selector 3 the stored type is "Current", but the minimum is
only checked for selector 2, so an initial deposit of 500.00 is accepted: createAccount
returns true, account 1 exists as a Current account with balance 500.00, and its
initial Deposit entry is logged. -/
theorem createAccount_selector_three_skips_minimum :
    (createAccount noFaults emptyBank "A" "" "" "" 3 500).1 = Outcome.success ∧
      typeOf (createAccount noFaults emptyBank "A" "" "" "" 3 500).2 1 = some "Current" ∧
      balanceOf (createAccount noFaults emptyBank "A" "" "" "" 3 500).2 1 = some 500 ∧
      (logOf (createAccount noFaults emptyBank "A" "" "" "" 3 500).2 1).length = 1 := by
  decide!

/-- C10 (openAccount postcondition): a negative initial deposit is refused with
InvalidAmount and nothing changes; a request that passes the two initial-deposit checks
of the code (deposit >= 0, and >= 1000 when the selector is 2) succeeds when the store
does not fail, adds exactly one row to `accounts` with the next account number and
balance = initialDeposit, and appends exactly one Deposit entry for that number with
amount = balanceAfter = initialDeposit and description "Initial Deposit". -/
theorem createAccount_postcondition (f : Faults) (db : Database)
    (name phone email address : String) (type : Int) (d : ℚ) :
    (d < 0 → createAccount f db name phone email address type d =
        (Outcome.invalidAmount, db)) ∧
    (0 ≤ d → ¬(type = 2 ∧ d < 1000) →
      (createAccount noFaults db name phone email address type d).1 = Outcome.success ∧
      (createAccount noFaults db name phone email address type d).2.accounts =
        db.accounts ++
          [{ account_number := db.autoIncrement, account_holder := name,
             account_type := if type = 1 then "Savings" else "Current", balance := d,
             phone_number := phone, email := email, address := address,
             status := defaultStatus }] ∧
      (createAccount noFaults db name phone email address type d).2.transactions =
        db.transactions ++
          [{ account_number := db.autoIncrement, transaction_type := "Deposit",
             amount := d, balance_after := d, description := "Initial Deposit" }]) := by
  refine ⟨?_, ?_⟩
  · intro h
    simp [createAccount, h]
  · intro h0 hmin
    simp only [createAccount, noFaults, not_lt.mpr h0, hmin, if_false]
    simp [recordTransaction]

/-- Scenario 1 as an instance of C10: opening a Current account (selector 2) with
1000.00 in an empty bank succeeds, with one account of balance 1000.00 and one Deposit
entry of 1000.00; and -1.00 is refused with InvalidAmount. -/
theorem createAccount_postcondition_witness :
    createAccount noFaults emptyBank "A" "" "" "" 2 (-1) =
      (Outcome.invalidAmount, emptyBank) ∧
    (createAccount noFaults emptyBank "A" "" "" "" 2 1000).1 = Outcome.success ∧
    balanceOf (createAccount noFaults emptyBank "A" "" "" "" 2 1000).2 1 = some 1000 ∧
    (createAccount noFaults emptyBank "A" "" "" "" 2 1000).2.accounts.length = 1 ∧
    (createAccount noFaults emptyBank "A" "" "" "" 2 1000).2.transactions.length = 1 :=
  have h := createAccount_postcondition noFaults emptyBank "A" "" "" "" 2
  have h1 := (h 1000).2 (by norm_num) (by norm_num)
  ⟨(h (-1)).1 (by norm_num), h1.1, by rw [balanceOf, selectAccount, h1.2.1]; decide,
    by rw [h1.2.1]; decide, by rw [h1.2.2]; decide⟩

/-! ## Deposit and withdraw -/

/-- The branches of withdraw on a store that does not fail: for an existing account with
balance `b` (other than `getBalance`'s not-found value `-1`) and type `t` and an amount
`a > 0`, withdraw fails with the minimum-balance message if the account is Current and
the difference computed in `double` is below 1000 (also when `b < a` holds as well: this
check comes first); otherwise with the insufficient-balance message if `b < a`;
otherwise it succeeds, the balance becomes `b - a`, and one Withdrawal entry with amount
`a` and balanceAfter `b - a` is appended. -/
theorem withdraw_branches (db : Database) (n : Int) (b : ℚ) (t : String) (a : ℚ)
    (hb : balanceOf db n = some b) (ht : typeOf db n = some t) (hne : b ≠ -1)
    (ha : 0 < a) :
    ((t = "Current" ∧ doubleSub b a < 1000) →
      withdraw noFaults db n a = (Outcome.minimumBalanceViolation, db)) ∧
    (¬(t = "Current" ∧ doubleSub b a < 1000) → b < a →
      withdraw noFaults db n a = (Outcome.insufficientFunds, db)) ∧
    (¬(t = "Current" ∧ doubleSub b a < 1000) → ¬ b < a →
      (withdraw noFaults db n a).1 = Outcome.success ∧
      balanceOf (withdraw noFaults db n a).2 n = some (b - a) ∧
      (withdraw noFaults db n a).2.transactions =
        db.transactions ++
          [{ account_number := n, transaction_type := "Withdrawal", amount := a,
             balance_after := b - a, description := "Cash Withdrawal" }]) := by
  obtain ⟨r, hsel, rfl, rfl⟩ := account_of_balance_type hb ht
  refine ⟨?_, ?_, ?_⟩
  · intro h
    exact withdraw_noFaults_minimum hsel hne ha h.1 h.2
  · intro hmin hlt
    exact withdraw_noFaults_insufficient hsel hne ha hmin hlt
  · intro hmin hge
    rw [withdraw_noFaults_success hsel hne ha hmin hge]
    refine ⟨rfl, ?_, ?_⟩
    · rw [balanceOf_recordTransaction, balanceOf_setBalance_same hsel]
    · rw [transactions_recordTransaction, transactions_setBalance]

/-- C7 (withdraw error classification), evaluated where the code departs from it: a
withdrawal of 24.07 from the Current account 1, whose balance is 1024.07.  In decimals
`1024.07 - 24.07` is exactly 1000.00, not below the minimum, and the balance covers the
amount, so the claim has the withdrawal succeed.  The program computes the difference in
`double`, where it is 999.9999999999999, and refuses with MinimumBalanceViolation;
nothing is changed. -/
theorem withdraw_at_minimum_refused :
    balanceOf boundaryCurrent 1 = some (102407 / 100) ∧
      typeOf boundaryCurrent 1 = some "Current" ∧
      (102407 / 100 : ℚ) - 2407 / 100 = 1000 ∧
      ¬ ((102407 / 100 : ℚ) < 2407 / 100) ∧
      doubleSub (102407 / 100) (2407 / 100) < 1000 ∧
      withdraw noFaults boundaryCurrent 1 (2407 / 100) =
        (Outcome.minimumBalanceViolation, boundaryCurrent) := by
  decide!

/-- C8 (minimum-balance boundary), evaluated where the code departs from it: the Current
account 2 holds `b = 1024.32 >= 1000`, and withdrawing exactly `b - 1000 = 24.32 > 0`
should succeed and leave 1000.00.  The program's `double` difference is below 1000, so
withdraw refuses with MinimumBalanceViolation and the balance stays 1024.32. -/
theorem withdraw_down_to_minimum_refused :
    balanceOf boundaryCurrent 2 = some (102432 / 100) ∧
      typeOf boundaryCurrent 2 = some "Current" ∧
      (1000 : ℚ) ≤ 102432 / 100 ∧ (0 : ℚ) < 102432 / 100 - 1000 ∧
      (withdraw noFaults boundaryCurrent 2 (102432 / 100 - 1000)).1 =
        Outcome.minimumBalanceViolation ∧
      balanceOf (withdraw noFaults boundaryCurrent 2 (102432 / 100 - 1000)).2 2 =
        some (102432 / 100) := by
  decide!

/-- The branches of transfer: it fails with InvalidAmount if `amount <= 0`; else with
SameAccount if both account numbers are equal; else with AccountNotFound if either
account is missing; else, for existing accounts (balances other than `getBalance`'s
not-found value `-1`) and a store that does not fail, with the minimum-balance message if
the source is Current and the difference computed in `double` is below 1000; else with
the insufficient-balance message if `balanceFrom < amount`; else it succeeds.  The type
of the destination never enters. -/
theorem transfer_branches (f : Faults) (db : Database) (m n : Int) (a : ℚ) :
    (a ≤ 0 → transfer f db m n a = (Outcome.invalidAmount, db)) ∧
    (0 < a → m = n → transfer f db m n a = (Outcome.sameAccount, db)) ∧
    (0 < a → m ≠ n → (balanceOf db m = none ∨ balanceOf db n = none) →
      transfer f db m n a = (Outcome.accountNotFound, db)) ∧
    (∀ (bf bt : ℚ) (tf : String), 0 < a → m ≠ n →
      balanceOf db m = some bf → typeOf db m = some tf → balanceOf db n = some bt →
      bf ≠ -1 → bt ≠ -1 →
      ((tf = "Current" ∧ doubleSub bf a < 1000) →
        transfer noFaults db m n a = (Outcome.minimumBalanceViolation, db)) ∧
      (¬(tf = "Current" ∧ doubleSub bf a < 1000) → bf < a →
        transfer noFaults db m n a = (Outcome.insufficientFunds, db)) ∧
      (¬(tf = "Current" ∧ doubleSub bf a < 1000) → ¬ bf < a →
        (transfer noFaults db m n a).1 = Outcome.success) ∧
      ((transfer noFaults db m n a).1 = Outcome.success ↔
        ¬(tf = "Current" ∧ doubleSub bf a < 1000) ∧ ¬ bf < a)) := by
  refine ⟨?_, ?_, ?_, ?_⟩
  · intro ha
    simp [transfer, ha]
  · intro ha hmn
    simp [transfer, not_le.mpr ha, hmn]
  · intro ha hmn hnone
    have hsentinel : getBalance (f Stmt.selectBalance) db m = -1 ∨
        getBalance (f Stmt.selectBalanceTo) db n = -1 := by
      rcases hnone with h | h
      · left
        have hs : selectAccount db m = none := by simpa [balanceOf] using h
        unfold getBalance
        split_ifs <;> simp [hs]
      · right
        have hs : selectAccount db n = none := by simpa [balanceOf] using h
        unfold getBalance
        split_ifs <;> simp [hs]
    simp only [transfer, not_le.mpr ha, hmn, hsentinel, if_true, if_false]
  · intro bf bt tf ha hmn hbf htf hbt hnef hnet
    obtain ⟨rf, hrf, rfl, rfl⟩ := account_of_balance_type hbf htf
    obtain ⟨rt, hrt, rfl⟩ := balanceOf_eq_some hbt
    have hfound : ¬(rf.balance = -1 ∨ rt.balance = -1) := by
      push_neg
      exact ⟨hnef, hnet⟩
    have hmin : (rf.account_type = "Current" ∧ doubleSub rf.balance a < 1000) →
        transfer noFaults db m n a = (Outcome.minimumBalanceViolation, db) := by
      intro h
      simp only [transfer, noFaults, getBalance_of_select hrf, getBalance_of_select hrt,
        getAccountType_of_select hrf, not_le.mpr ha, hmn, hfound, h, if_false]
      simp
    have hins : ¬(rf.account_type = "Current" ∧ doubleSub rf.balance a < 1000) →
        rf.balance < a →
        transfer noFaults db m n a = (Outcome.insufficientFunds, db) := by
      intro h hlt
      simp only [transfer, noFaults, getBalance_of_select hrf, getBalance_of_select hrt,
        getAccountType_of_select hrf, not_le.mpr ha, hmn, hfound, h, hlt, if_true,
        if_false]
    have hok : ¬(rf.account_type = "Current" ∧ doubleSub rf.balance a < 1000) →
        ¬ rf.balance < a → (transfer noFaults db m n a).1 = Outcome.success := by
      intro h hge
      simp only [transfer, noFaults, getBalance_of_select hrf, getBalance_of_select hrt,
        getAccountType_of_select hrf, not_le.mpr ha, hmn, hfound, h, hge, if_false]
      simp
    refine ⟨hmin, hins, hok, ?_⟩
    constructor
    · intro hs
      refine ⟨fun h => ?_, fun hlt => ?_⟩
      · rw [hmin h] at hs
        exact Outcome.noConfusion hs
      · by_cases h : rf.account_type = "Current" ∧ doubleSub rf.balance a < 1000
        · rw [hmin h] at hs
          exact Outcome.noConfusion hs
        · rw [hins h hlt] at hs
          exact Outcome.noConfusion hs
    · intro h
      exact hok h.1 h.2

/-- C11 (transfer validation), evaluated where the code departs from it: a transfer of
24.07 from the Current account 1, whose balance is 1024.07, to the Savings account 3.
The amount is positive, the accounts differ and exist, `1024.07 - 24.07` is exactly
1000.00 and the balance covers the amount, so none of the five conditions holds and the
claim has the transfer succeed.  The program computes the difference in `double`, where
it is below 1000, and refuses with MinimumBalanceViolation; nothing is changed. -/
theorem transfer_at_minimum_refused :
    balanceOf boundaryCurrent 1 = some (102407 / 100) ∧
      typeOf boundaryCurrent 1 = some "Current" ∧
      balanceOf boundaryCurrent 3 = some 300 ∧
      (0 : ℚ) < 2407 / 100 ∧ (102407 / 100 : ℚ) - 2407 / 100 = 1000 ∧
      ¬ ((102407 / 100 : ℚ) < 2407 / 100) ∧
      transfer noFaults boundaryCurrent 1 3 (2407 / 100) =
        (Outcome.minimumBalanceViolation, boundaryCurrent) := by
  decide!

/-! ## Failed single-account operations -/

/-- C12 (no partial state on failure of a single-account operation): whenever deposit,
withdraw or closeAccount does not return true, for whatever reason (invalid amount,
account not found, minimum-balance violation, insufficient funds, non-zero balance, an
UPDATE that throws or changes no row), the database after the call is the database
before it: every balance, every status and every log entry. -/
theorem failed_operation_changes_nothing (f : Faults) (db : Database) (n : Int) (a : ℚ) :
    ((deposit f db n a).1 ≠ Outcome.success → (deposit f db n a).2 = db) ∧
    ((withdraw f db n a).1 ≠ Outcome.success → (withdraw f db n a).2 = db) ∧
    ((closeAccount f db n).1 ≠ Outcome.success → (closeAccount f db n).2 = db) := by
  refine ⟨?_, ?_, ?_⟩
  · intro h
    simp only [deposit] at h ⊢
    split_ifs at h ⊢ with h1 h2 h3 h4
    · rfl
    · rfl
    · rfl
    · exact absurd rfl h
    · exact setBalance_of_count_zero (not_not.mp h4)
  · intro h
    simp only [withdraw] at h ⊢
    split_ifs at h ⊢ with h1 h2 h3 h4 h5 h6
    · rfl
    · rfl
    · rfl
    · rfl
    · rfl
    · exact absurd rfl h
    · exact setBalance_of_count_zero (not_not.mp h6)
  · intro h
    simp only [closeAccount] at h ⊢
    split_ifs at h ⊢ with h1 h2 h3 h4
    · rfl
    · rfl
    · rfl
    · exact absurd rfl h
    · exact setClosed_of_count_zero (not_not.mp h4)

/-- Instances of C12: a deposit of 0, a withdrawal of 600.00 from the Current account 1
(1500.00), and closing account 2 (300.00) all fail and leave the database as it was. -/
theorem failed_operation_changes_nothing_witness :
    (deposit noFaults currentAndSavings 1 0).1 ≠ Outcome.success ∧
    (deposit noFaults currentAndSavings 1 0).2 = currentAndSavings ∧
    (withdraw noFaults currentAndSavings 1 600).1 ≠ Outcome.success ∧
    (withdraw noFaults currentAndSavings 1 600).2 = currentAndSavings ∧
    (closeAccount noFaults currentAndSavings 2).1 ≠ Outcome.success ∧
    (closeAccount noFaults currentAndSavings 2).2 = currentAndSavings :=
  ⟨by decide!,
    (failed_operation_changes_nothing noFaults currentAndSavings 1 0).1 (by decide!),
    by decide!,
    (failed_operation_changes_nothing noFaults currentAndSavings 1 600).2.1 (by decide!),
    by decide!,
    (failed_operation_changes_nothing noFaults currentAndSavings 2 0).2.2 (by decide!)⟩

/-! ## The entries written to the log -/

/-- C13 as stated fails: opening a Savings account (selector 1) with an initial deposit
of 0 succeeds and appends a Deposit entry whose amount is 0. -/
theorem createAccount_zero_deposit_logs_zero :
    (createAccount noFaults emptyBank "A" "" "" "" 1 0).1 = Outcome.success ∧
      (createAccount noFaults emptyBank "A" "" "" "" 1 0).2.transactions =
        [{ account_number := 1, transaction_type := "Deposit", amount := 0,
           balance_after := 0, description := "Initial Deposit" }] := by
  decide!

/-- C13 as amended: each operation only appends to the log; every entry appended by
deposit, withdraw or transfer has amount > 0, the entry appended by createAccount has
amount = initialDeposit >= 0 (which may be 0), and in all four the entry's balanceAfter
is the balance stored for its account when the operation returns.  Holds whatever the
store does, on a database whose AUTO_INCREMENT counter is ahead of the stored rows. -/
theorem appended_entries_match_balance (f : Faults) (db : Database)
    (hfresh : FreshCounter db) :
    (∀ (n : Int) (a : ℚ), ∃ added : List TransactionRow,
      (deposit f db n a).2.transactions = db.transactions ++ added ∧
      ∀ e ∈ added, 0 < e.amount ∧
        balanceOf (deposit f db n a).2 e.account_number = some e.balance_after) ∧
    (∀ (n : Int) (a : ℚ), ∃ added : List TransactionRow,
      (withdraw f db n a).2.transactions = db.transactions ++ added ∧
      ∀ e ∈ added, 0 < e.amount ∧
        balanceOf (withdraw f db n a).2 e.account_number = some e.balance_after) ∧
    (∀ (m n : Int) (a : ℚ), ∃ added : List TransactionRow,
      (transfer f db m n a).2.transactions = db.transactions ++ added ∧
      ∀ e ∈ added, 0 < e.amount ∧
        balanceOf (transfer f db m n a).2 e.account_number = some e.balance_after) ∧
    (∀ (name phone email address : String) (type : Int) (d : ℚ),
      ∃ added : List TransactionRow,
      (createAccount f db name phone email address type d).2.transactions =
        db.transactions ++ added ∧
      ∀ e ∈ added, e.amount = d ∧ 0 ≤ e.amount ∧
        balanceOf (createAccount f db name phone email address type d).2 e.account_number
          = some e.balance_after) := by
  refine ⟨?_, ?_, ?_, ?_⟩
  · intro n a
    simp only [deposit]
    split_ifs with h1 h2 h3 h4
    · exact ⟨[], by simp, by simp⟩
    · exact ⟨[], by simp, by simp⟩
    · exact ⟨[], by simp, by simp⟩
    · obtain ⟨-, r, hr, hb⟩ := getBalance_found h2
      refine ⟨_, recordTransaction_transactions _ _ _ _ _ _ _, ?_⟩
      intro e he
      cases hfl : f Stmt.insertTxn with
      | true => simp [hfl] at he
      | false =>
        simp only [hfl, Bool.false_eq_true, if_false, List.mem_singleton] at he
        subst he
        refine ⟨lt_of_not_le h1, ?_⟩
        rw [balanceOf_recordTransaction, balanceOf_setBalance_same hr]
    · exact ⟨[], by simp [transactions_setBalance], by simp⟩
  · intro n a
    simp only [withdraw]
    split_ifs with h1 h2 h3 h4 h5 h6
    · exact ⟨[], by simp, by simp⟩
    · exact ⟨[], by simp, by simp⟩
    · exact ⟨[], by simp, by simp⟩
    · exact ⟨[], by simp, by simp⟩
    · exact ⟨[], by simp, by simp⟩
    · obtain ⟨-, r, hr, hb⟩ := getBalance_found h2
      refine ⟨_, recordTransaction_transactions _ _ _ _ _ _ _, ?_⟩
      intro e he
      cases hfl : f Stmt.insertTxn with
      | true => simp [hfl] at he
      | false =>
        simp only [hfl, Bool.false_eq_true, if_false, List.mem_singleton] at he
        subst he
        refine ⟨lt_of_not_le h1, ?_⟩
        rw [balanceOf_recordTransaction, balanceOf_setBalance_same hr]
    · exact ⟨[], by simp [transactions_setBalance], by simp⟩
  · intro m n a
    simp only [transfer]
    split_ifs with h1 h2 h3 h4 h5 h6 h7
    · exact ⟨[], by simp, by simp⟩
    · exact ⟨[], by simp, by simp⟩
    · exact ⟨[], by simp, by simp⟩
    · exact ⟨[], by simp, by simp⟩
    · exact ⟨[], by simp, by simp⟩
    · exact ⟨[], by simp, by simp⟩
    · exact ⟨[], by simp, by simp⟩
    · push_neg at h3
      obtain ⟨-, rm, hrm, hbm⟩ := getBalance_found h3.1
      obtain ⟨-, rn, hrn, hbn⟩ := getBalance_found h3.2
      have hsel : selectAccount (setBalance db m
          (getBalance (f Stmt.selectBalance) db m - a)) n = some rn := by
        rw [selectAccount_setBalance, hrn]
        have hne : ¬ rn.account_number = m := by
          rw [selectAccount_number hrn]
          exact fun e => h2 e.symm
        simp [hne]
      refine ⟨(if f Stmt.insertTxn then []
          else [{ account_number := m, transaction_type := "Transfer", amount := a,
                  balance_after := getBalance (f Stmt.selectBalance) db m - a,
                  description := "Transfer to account " ++ toString n }]) ++
        (if f Stmt.insertTxnTo then []
          else [{ account_number := n, transaction_type := "Transfer", amount := a,
                  balance_after := getBalance (f Stmt.selectBalanceTo) db n + a,
                  description := "Transfer from account " ++ toString m }]), ?_, ?_⟩
      · rw [recordTransaction_transactions, recordTransaction_transactions,
          transactions_setBalance, transactions_setBalance, List.append_assoc]
      · intro e he
        rw [List.mem_append] at he
        rcases he with he | he
        · cases hfl : f Stmt.insertTxn with
          | true => simp [hfl] at he
          | false =>
            simp only [hfl, Bool.false_eq_true, if_false, List.mem_singleton] at he
            subst he
            refine ⟨lt_of_not_le h1, ?_⟩
            rw [balanceOf_recordTransaction, balanceOf_recordTransaction,
              balanceOf_setBalance_other h2, balanceOf_setBalance_same hrm]
        · cases hfl : f Stmt.insertTxnTo with
          | true => simp [hfl] at he
          | false =>
            simp only [hfl, Bool.false_eq_true, if_false, List.mem_singleton] at he
            subst he
            refine ⟨lt_of_not_le h1, ?_⟩
            rw [balanceOf_recordTransaction, balanceOf_recordTransaction,
              balanceOf_setBalance_same hsel]
  · intro name phone email address type d
    simp only [createAccount]
    by_cases h1 : d < 0
    · exact ⟨[], by simp [h1], by simp⟩
    by_cases h2 : type = 2 ∧ d < 1000
    · exact ⟨[], by simp [h1, h2], by simp⟩
    by_cases h3 : f Stmt.insertAccount = true
    · exact ⟨[], by simp [h1, h2, h3], by simp⟩
    by_cases h4 : f Stmt.selectLastId = true
    · exact ⟨[], by simp [h1, h2, h3, h4], by simp⟩
    rw [Bool.not_eq_true] at h3 h4
    simp only [h1, h2, h3, h4, Bool.false_eq_true, if_false]
    refine ⟨_, recordTransaction_transactions _ _ _ _ _ _ _, ?_⟩
    intro e he
    cases hfl : f Stmt.insertTxn with
    | true => simp [hfl] at he
    | false =>
      simp only [hfl, Bool.false_eq_true, if_false, List.mem_singleton] at he
      subst he
      refine ⟨rfl, not_lt.mp h1, ?_⟩
      rw [balanceOf_recordTransaction]
      unfold balanceOf
      rw [selectAccount_append_fresh hfresh _ rfl]
      rfl

/-- Instances of the amended C13: the entry of a 500.00 deposit into account 1 of
`twoSavings`, the two entries of Scenario 5's transfer, and the entry of an account
opened with a zero deposit. -/
theorem appended_entries_match_balance_witness :
    FreshCounter twoSavings ∧ FreshCounter emptyBank ∧
    (∃ added : List TransactionRow,
      (deposit noFaults twoSavings 1 500).2.transactions =
        twoSavings.transactions ++ added ∧
      ∀ e ∈ added, 0 < e.amount ∧
        balanceOf (deposit noFaults twoSavings 1 500).2 e.account_number
          = some e.balance_after) ∧
    (∃ added : List TransactionRow,
      (transfer noFaults twoSavings 1 2 200).2.transactions =
        twoSavings.transactions ++ added ∧
      ∀ e ∈ added, 0 < e.amount ∧
        balanceOf (transfer noFaults twoSavings 1 2 200).2 e.account_number
          = some e.balance_after) ∧
    (∃ added : List TransactionRow,
      (createAccount noFaults emptyBank "A" "" "" "" 1 0).2.transactions =
        emptyBank.transactions ++ added ∧
      ∀ e ∈ added, e.amount = 0 ∧ 0 ≤ e.amount ∧
        balanceOf (createAccount noFaults emptyBank "A" "" "" "" 1 0).2 e.account_number
          = some e.balance_after) :=
  ⟨by decide, by decide,
    (appended_entries_match_balance noFaults twoSavings (by decide)).1 1 500,
    (appended_entries_match_balance noFaults twoSavings (by decide)).2.2.1 1 2 200,
    (appended_entries_match_balance noFaults emptyBank (by decide)).2.2.2
      "A" "" "" "" 1 0⟩

/-! ## Interest -/

/-- C14 (calculateInterest is a pure function of kind and balance): for a Savings
account it returns `balance * 0.04`, i.e. `balance * 4 / 100`; for a Current account and
for the base class it returns 0; the call leaves the object, and so its balance, as it
was; and two accounts of the same class with the same balance get the same interest. -/
theorem calculateInterest_pure (self other : Account) :
    (calculateInterest AccountClass.savingsAccount self).1 = self.balance * 4 / 100 ∧
    (calculateInterest AccountClass.currentAccount self).1 = 0 ∧
    (calculateInterest AccountClass.account self).1 = 0 ∧
    (∀ cls : AccountClass, (calculateInterest cls self).2 = self) ∧
    (∀ cls : AccountClass, self.balance = other.balance →
      (calculateInterest cls self).1 = (calculateInterest cls other).1) := by
  refine ⟨?_, rfl, rfl, ?_, ?_⟩
  · simp only [calculateInterest, SavingsAccount.calculateInterest,
      SavingsAccount.INTEREST_RATE]
    ring
  · intro cls
    cases cls <;> rfl
  · intro cls h
    cases cls
    · rfl
    · simp only [calculateInterest, SavingsAccount.calculateInterest, h]
    · rfl

/-- An instance of C14: a Savings object with balance 1000.00 yields 40.00, the same as
another Savings object with that balance, and the object is unchanged by the call. -/
theorem calculateInterest_pure_witness :
    (calculateInterest AccountClass.savingsAccount accountA).1 = 40 ∧
    (calculateInterest AccountClass.savingsAccount accountA).2 = accountA ∧
    accountA.balance = accountB.balance ∧
    (calculateInterest AccountClass.savingsAccount accountA).1 =
      (calculateInterest AccountClass.savingsAccount accountB).1 :=
  ⟨by rw [(calculateInterest_pure accountA accountB).1]; decide!,
    (calculateInterest_pure accountA accountB).2.2.2.1 AccountClass.savingsAccount,
    rfl,
    (calculateInterest_pure accountA accountB).2.2.2.2 AccountClass.savingsAccount rfl⟩

/-! ## Insufficient funds and Current accounts -/

/-- C15 as stated fails: with the account-type lookup throwing, a withdrawal of 2000.00
from the Current account 1 (1500.00) skips the minimum-balance check and fails with
InsufficientFunds. -/
theorem withdraw_type_fault_reports_insufficient :
    typeOf currentAndSavings 1 = some "Current" ∧
      (withdraw typeLookupFault currentAndSavings 1 2000).1 =
        Outcome.insufficientFunds := by
  decide!

/-- C15 as amended: in every run in which the account-type lookup `getAccountType` does
not throw, a Current source account never gets InsufficientFunds from withdraw or from
transfer, for any balance and any amount: `balance < amount` makes the difference the
program computes non-positive, hence below 1000, so the minimum-balance check has already
refused the request. -/
theorem insufficient_funds_not_for_current (f : Faults) (db : Database) (n : Int)
    (hf : f .selectType = false) (ht : typeOf db n = some "Current") :
    (∀ a : ℚ, (withdraw f db n a).1 ≠ Outcome.insufficientFunds) ∧
    (∀ (m : Int) (a : ℚ), (transfer f db n m a).1 ≠ Outcome.insufficientFunds) := by
  have hty := getAccountType_of_typeOf ht
  refine ⟨?_, ?_⟩
  · intro a
    simp only [withdraw, hf, hty]
    split_ifs with h1 h2 h3 h4 h5 h6
    · simp
    · simp
    · simp
    · exact fun _ => h3 ⟨trivial, lt_of_le_of_lt (doubleSub_nonpos h4.le) (by norm_num)⟩
    · simp
    · simp
    · simp
  · intro m a
    simp only [transfer, hf, hty]
    split_ifs with h1 h2 h3 h4 h5 h6 h7
    · simp
    · simp
    · simp
    · simp
    · exact fun _ => h4 ⟨trivial, lt_of_le_of_lt (doubleSub_nonpos h5.le) (by norm_num)⟩
    · simp
    · simp
    · simp

/-- An instance of the amended C15 on the Current account 1 (1500.00): asking for
2000.00, more than the balance, is not answered with InsufficientFunds, by withdraw or
by transfer. -/
theorem insufficient_funds_not_for_current_witness :
    noFaults Stmt.selectType = false ∧ typeOf currentAndSavings 1 = some "Current" ∧
    (withdraw noFaults currentAndSavings 1 2000).1 ≠ Outcome.insufficientFunds ∧
    (transfer noFaults currentAndSavings 1 2 2000).1 ≠ Outcome.insufficientFunds :=
  ⟨rfl, by decide,
    (insufficient_funds_not_for_current noFaults currentAndSavings 1 rfl (by decide)).1
      2000,
    (insufficient_funds_not_for_current noFaults currentAndSavings 1 rfl (by decide)).2
      2 2000⟩

end BankingSystem
